import Mathlib

/-!
Verification of the libgpiod-rs crate (Linux GPIO character-device interface).

This file gives a shallow embedding of the parts of the crate relevant to the
checked claims: the `Values` bit/mask pair and its fixed-width integer
conversions (`src/types.rs`), the validation helpers `check_len`,
`check_len_str`, `safe_set_str`, `safe_get_str` and `is_set`
(`src/utils.rs`), the v1/v2 ioctl flag constants (`src/raw/v1.rs`,
`src/raw/v2.rs`), and from `src/lib.rs` the sysfs device-number check
`Chip::is_gpiochip_cdev`, the prologue of `Chip::request_output` /
`Chip::request_input` up to the ioctl, the v1 encode/decode of line values,
and the edge-event decoding `LineValues::make_event`.

Machine integers are embedded as `Nat`; `u64` overflow is modelled with
explicit `% 2 ^ 64` or masked shift amounts where the source can overflow.
Fallible Rust code returning `io::Result` is embedded in `Except IoError` or,
where the source can also panic (slice length mismatches, index out of
bounds, usize underflow), in the three-valued `Outcome` type whose `panics`
constructor marks a Rust panic: a diverging outcome that returns no `Result`
at all.
-/

namespace LibGpiod

/-- Kind of a Rust `std::io::Error`, restricted to the kinds this crate
constructs locally (`InvalidInput`, `InvalidData`, `Other`) plus `os` for
errors propagated from a failed syscall or read. -/
inductive IoErrorKind
  | invalidInput
  | invalidData
  | other
  | os
deriving DecidableEq, Repr

/-- Embedding of `std::io::Error`: a kind together with the message used at
the construction site (empty for `io::Error::from(kind)`). -/
structure IoError where
  kind : IoErrorKind
  msg : String
deriving DecidableEq, Repr

/-- Embedding of `utils::invalid_input`: `io::Error::from(ErrorKind::InvalidInput)`. -/
def invalid_input : IoError := ⟨.invalidInput, ""⟩

/-- Embedding of `utils::invalid_data`: `io::Error::from(ErrorKind::InvalidData)`. -/
def invalid_data : IoError := ⟨.invalidData, ""⟩

/-- Result of running a piece of Rust code that may return a value, return an
`Err`, or panic (and hence return no `Result` at all). -/
inductive Outcome (α : Type)
  | ok (a : α)
  | err (e : IoError)
  | panics
deriving DecidableEq, Repr

/-- Embedding of `types::Values`: a pair of `u64` fields. The `bits` field
holds the logic values of the lines and `mask` marks which bits are
meaningful. Values produced by the embedded operations keep both fields
below `2 ^ 64`. -/
structure Values where
  bits : Nat
  mask : Nat
deriving DecidableEq, Repr

/-- Embedding of `Values::default()`: both fields zero. -/
def Values.default : Values := ⟨0, 0⟩

/-- Embedding of `Values::get`. The source guard is `if bit > 64` (not
`>= 64`), so `bit = 64` falls through to `1u64 << 64`, a shift by the full
width; we model the release-build semantics in which the shift amount is
masked modulo 64 (a debug build would panic there instead — either way the
source's own doc comment, which promises `None` outside `0..64`, is not
honoured at 64). -/
def Values.get (v : Values) (bit : Nat) : Option Bool :=
  if bit > 64 then none
  else
    let m := 1 <<< (bit % 64)
    if v.mask &&& m = 0 then none
    else some (decide (v.bits &&& m ≠ 0))

/-- Embedding of `Values::set`, with the same `bit > 64` guard and masked
shift as `Values.get`. The `!mask` complement on `u64` is `(2 ^ 64 - 1) ^^^ m`. -/
def Values.set (v : Values) (bit : Nat) (val : Bool) : Values :=
  if bit > 64 then v
  else
    let m := 1 <<< (bit % 64)
    { bits := if val then v.bits ||| m else v.bits &&& ((2 ^ 64 - 1) ^^^ m),
      mask := v.mask ||| m }

/-- Embedding of `impl From<u8> for Values` from the `values_conv!` macro:
`bits` is the argument zero-extended to `u64` and `mask` is `u8::MAX`.
The argument is a `u8`, i.e. a `Nat` below `2 ^ 8`. -/
def Values.ofU8 (n : Nat) : Values := ⟨n, 2 ^ 8 - 1⟩

/-- Embedding of `impl From<Values> for u8`: `values.bits as u8` truncates. -/
def Values.toU8 (v : Values) : Nat := v.bits % 2 ^ 8

/-- Embedding of `impl From<u16> for Values` (argument below `2 ^ 16`). -/
def Values.ofU16 (n : Nat) : Values := ⟨n, 2 ^ 16 - 1⟩

/-- Embedding of `impl From<Values> for u16`. -/
def Values.toU16 (v : Values) : Nat := v.bits % 2 ^ 16

/-- Embedding of `impl From<u32> for Values` (argument below `2 ^ 32`). -/
def Values.ofU32 (n : Nat) : Values := ⟨n, 2 ^ 32 - 1⟩

/-- Embedding of `impl From<Values> for u32`. -/
def Values.toU32 (v : Values) : Nat := v.bits % 2 ^ 32

/-- Embedding of `impl From<u64> for Values` (argument below `2 ^ 64`). -/
def Values.ofU64 (n : Nat) : Values := ⟨n, 2 ^ 64 - 1⟩

/-- Embedding of `impl From<Values> for u64`: the cast is the identity on
`u64`, i.e. reduction modulo `2 ^ 64`. -/
def Values.toU64 (v : Values) : Nat := v.bits % 2 ^ 64

/-- Embedding of `utils::is_set`: `flags & flag == flag`. -/
def is_set (flags flag : Nat) : Bool := flags &&& flag = flag

/-- Embedding of `utils::check_len`. The source compares `slice.len()` (an
element count) against `size_of_val(val)` (a size in bytes); both are passed
here as naturals, `valSizeBytes` being the byte size of the referent of the
`val` argument at the call site. -/
def check_len (sliceLen valSizeBytes : Nat) : Except IoError Unit :=
  if sliceLen < valSizeBytes then .ok () else .error invalid_input

/-- Embedding of `utils::check_len_str`: `src.as_bytes().len() + 1 < size_of_val(val)`. -/
def check_len_str (srcLen valSizeBytes : Nat) : Except IoError Unit :=
  if srcLen + 1 < valSizeBytes then .ok () else .error invalid_input

/-- Byte size that `size_of_val(&dst)` yields inside `utils::safe_set_str`.
There `dst : &mut [u8; N]` is itself a reference, so `&dst : &&mut [u8; N]`
and `size_of_val` measures the reference type `&mut [u8; N]`, not the
array: 8 bytes on the 64-bit targets this Linux-only crate is built for
(4 on 32-bit targets, which changes nothing proved below). -/
def SIZE_OF_ARRAY_REF : Nat := 8

/-- Embedding of `<[T]>::copy_from_slice` restricted to what matters here:
it succeeds when the two slices have equal length and panics otherwise. -/
def copy_from_slice (dstLen srcLen : Nat) : Outcome Unit :=
  if srcLen = dstLen then .ok () else .panics

/-- Embedding of `utils::safe_set_str` on a destination array `[u8; dstLen]`
and a source string of `srcLen` bytes. After `check_len_str(src, &dst)`
(which measures the reference, see `SIZE_OF_ARRAY_REF`), the source runs
`dst.copy_from_slice(src)` over the whole array — panicking unless
`srcLen = dstLen` — and then `dst[src.len()] = 0`, which indexes out of
bounds (panics) whenever `srcLen ≥ dstLen`. -/
def safe_set_str (dstLen srcLen : Nat) : Outcome Unit :=
  match check_len_str srcLen SIZE_OF_ARRAY_REF with
  | .error e => .err e
  | .ok _ =>
    match copy_from_slice dstLen srcLen with
    | .panics => .panics
    | .err e => .err e
    | .ok _ => if srcLen < dstLen then .ok () else .panics

/-- Validity of a byte sequence as UTF-8, as checked by `str::from_utf8`
inside `utils::safe_get_str` (RFC 3629: no overlong forms, no surrogates,
code points at most `U+10FFFF`). -/
def validUtf8 : List Nat → Bool
  | [] => true
  | b :: rest =>
    if b ≤ 0x7F then validUtf8 rest
    else if 0xC2 ≤ b ∧ b ≤ 0xDF then
      match rest with
      | c1 :: rest2 => (0x80 ≤ c1 ∧ c1 ≤ 0xBF) ∧ validUtf8 rest2
      | [] => false
    else if b = 0xE0 then
      match rest with
      | c1 :: c2 :: rest2 =>
        (0xA0 ≤ c1 ∧ c1 ≤ 0xBF) ∧ (0x80 ≤ c2 ∧ c2 ≤ 0xBF) ∧ validUtf8 rest2
      | _ => false
    else if (0xE1 ≤ b ∧ b ≤ 0xEC) ∨ b = 0xEE ∨ b = 0xEF then
      match rest with
      | c1 :: c2 :: rest2 =>
        (0x80 ≤ c1 ∧ c1 ≤ 0xBF) ∧ (0x80 ≤ c2 ∧ c2 ≤ 0xBF) ∧ validUtf8 rest2
      | _ => false
    else if b = 0xED then
      match rest with
      | c1 :: c2 :: rest2 =>
        (0x80 ≤ c1 ∧ c1 ≤ 0x9F) ∧ (0x80 ≤ c2 ∧ c2 ≤ 0xBF) ∧ validUtf8 rest2
      | _ => false
    else if b = 0xF0 then
      match rest with
      | c1 :: c2 :: c3 :: rest2 =>
        (0x90 ≤ c1 ∧ c1 ≤ 0xBF) ∧ (0x80 ≤ c2 ∧ c2 ≤ 0xBF) ∧
          (0x80 ≤ c3 ∧ c3 ≤ 0xBF) ∧ validUtf8 rest2
      | _ => false
    else if 0xF1 ≤ b ∧ b ≤ 0xF3 then
      match rest with
      | c1 :: c2 :: c3 :: rest2 =>
        (0x80 ≤ c1 ∧ c1 ≤ 0xBF) ∧ (0x80 ≤ c2 ∧ c2 ≤ 0xBF) ∧
          (0x80 ≤ c3 ∧ c3 ≤ 0xBF) ∧ validUtf8 rest2
      | _ => false
    else if b = 0xF4 then
      match rest with
      | c1 :: c2 :: c3 :: rest2 =>
        (0x80 ≤ c1 ∧ c1 ≤ 0x8F) ∧ (0x80 ≤ c2 ∧ c2 ≤ 0xBF) ∧
          (0x80 ≤ c3 ∧ c3 ≤ 0xBF) ∧ validUtf8 rest2
      | _ => false
    else false

/-- Removal of trailing NUL bytes: `str::trim_end_matches('\0')` on the byte
level, as applied by `utils::safe_get_str`. -/
def trimEndZeros (l : List Nat) : List Nat := (l.reverse.dropWhile (· == 0)).reverse

/-- Embedding of `utils::safe_get_str` on byte lists: UTF-8 validation
(`invalid_data` on failure) followed by trimming trailing NULs. -/
def safe_get_str (src : List Nat) : Except IoError (List Nat) :=
  if validUtf8 src then .ok (trimEndZeros src) else .error invalid_data

/-- Decimal digits of a positive number as ASCII bytes, least significant
first; the first argument is recursion fuel (the number itself suffices). -/
def decDigitsAux : Nat → Nat → List Nat
  | 0, _ => []
  | _ + 1, 0 => []
  | fuel + 1, n + 1 => ((n + 1) % 10 + 48) :: decDigitsAux fuel ((n + 1) / 10)

/-- ASCII bytes of the decimal rendering of a natural, as Rust `format!`
renders an unsigned integer (`0` renders as `"0"`). -/
def decimalBytes (n : Nat) : List Nat :=
  if n = 0 then [48] else (decDigitsAux n n).reverse

/-- Bytes of the `format!("{}:{}", rdev >> 8, rdev & 0xFF)` string built by
`Chip::is_gpiochip_cdev` from the opened file's device number; `58` is `':'`. -/
def file_rdev_bytes (rdev : Nat) : List Nat :=
  decimalBytes (rdev >>> 8) ++ [58] ++ decimalBytes (rdev &&& 0xFF)

/-- Embedding of `Chip::is_gpiochip_cdev`. Environment inputs: whether
`symlink_metadata` reports a character device, whether the sysfs `dev` entry
is a file, the 16-byte zero-initialised buffer after the `read` into
`sysfs_rdev`, and the file's raw device number. `lf_pos` is the index of the
first line-feed byte (10), defaulting to `len - 1`; the source then slices
`[0..lf_pos - 1]`, so a line feed at index 0 underflows the `usize`
subtraction and panics. The source returns the "Unmatched device versions"
error when the trimmed slice EQUALS the derived `major:minor` string and
succeeds otherwise. -/
def is_gpiochip_cdev (isCharDev sysfsIsFile : Bool) (sysfs_rdev : List Nat)
    (rdev : Nat) : Outcome Bool :=
  if !isCharDev then .err ⟨.invalidInput, "File is not character device"⟩
  else if !sysfsIsFile then .err ⟨.invalidInput, "Matching GPIO in sys not found"⟩
  else
    let lf_pos := (sysfs_rdev.findIdx? (· == 10)).getD (sysfs_rdev.length - 1)
    if lf_pos = 0 then .panics
    else
      match safe_get_str (sysfs_rdev.take (lf_pos - 1)) with
      | .error e => .err e
      | .ok s =>
        if s = file_rdev_bytes rdev then .err ⟨.other, "Unmatched device versions"⟩
        else .ok true

/-- Constant `GPIOHANDLES_MAX` / `GPIO_LINES_MAX` from `src/raw/v1.rs` and
`src/raw/v2.rs`: the offsets arrays are `[u32; 64]`. -/
def GPIOHANDLES_MAX : Nat := 64

/-- Size in bytes of the `[u32; 64]` offsets array, which is what
`size_of_val(&request.line_offsets)` / `size_of_val(&request.offsets)`
yields at the `check_len` call sites in `Chip::request_output` and
`Chip::request_input`. -/
def OFFSETS_ARRAY_BYTES : Nat := GPIOHANDLES_MAX * 4

/-- Constant `GPIO_MAX_NAME_SIZE`: the consumer-label fields are
`[u8; GPIO_MAX_NAME_SIZE]` in `src/raw/v1.rs` / `src/raw/v2.rs`, and the
flat `src/raw.rs` declares the same fields as `[u8; 32]`; the spec likewise
fixes the kernel consumer field at 32 bytes. -/
def GPIO_MAX_NAME_SIZE : Nat := 32

/-- Request flag constants from `src/raw/v1.rs`. -/
def GPIOHANDLE_REQUEST_INPUT : Nat := 1 <<< 0

/-- Constant `GPIOHANDLE_REQUEST_OUTPUT` from `src/raw/v1.rs`. -/
def GPIOHANDLE_REQUEST_OUTPUT : Nat := 1 <<< 1

/-- Constant `GPIOHANDLE_REQUEST_ACTIVE_LOW` from `src/raw/v1.rs`. -/
def GPIOHANDLE_REQUEST_ACTIVE_LOW : Nat := 1 <<< 2

/-- Constant `GPIOHANDLE_REQUEST_OPEN_DRAIN` from `src/raw/v1.rs`. -/
def GPIOHANDLE_REQUEST_OPEN_DRAIN : Nat := 1 <<< 3

/-- Constant `GPIOHANDLE_REQUEST_OPEN_SOURCE` from `src/raw/v1.rs`. -/
def GPIOHANDLE_REQUEST_OPEN_SOURCE : Nat := 1 <<< 4

/-- Constant `GPIOHANDLE_REQUEST_BIAS_PULL_UP` from `src/raw/v1.rs`. -/
def GPIOHANDLE_REQUEST_BIAS_PULL_UP : Nat := 1 <<< 5

/-- Constant `GPIOHANDLE_REQUEST_BIAS_PULL_DOWN` from `src/raw/v1.rs`. -/
def GPIOHANDLE_REQUEST_BIAS_PULL_DOWN : Nat := 1 <<< 6

/-- Constant `GPIOHANDLE_REQUEST_BIAS_DISABLE` from `src/raw/v1.rs`. -/
def GPIOHANDLE_REQUEST_BIAS_DISABLE : Nat := 1 <<< 7

/-- Constant `GPIOEVENT_EVENT_RISING_EDGE` from `src/raw/v1.rs`. -/
def GPIOEVENT_EVENT_RISING_EDGE : Nat := 0x01

/-- Constant `GPIOEVENT_EVENT_FALLING_EDGE` from `src/raw/v1.rs`. -/
def GPIOEVENT_EVENT_FALLING_EDGE : Nat := 0x02

/-- Constant `GPIO_LINE_FLAG_ACTIVE_LOW` from `src/raw/v2.rs` (`u64` flags). -/
def GPIO_LINE_FLAG_ACTIVE_LOW : Nat := 1 <<< 1

/-- Constant `GPIO_LINE_FLAG_INPUT` from `src/raw/v2.rs`. -/
def GPIO_LINE_FLAG_INPUT : Nat := 1 <<< 2

/-- Constant `GPIO_LINE_FLAG_OUTPUT` from `src/raw/v2.rs`. -/
def GPIO_LINE_FLAG_OUTPUT : Nat := 1 <<< 3

/-- Constant `GPIO_LINE_FLAG_EDGE_RISING` from `src/raw/v2.rs`. -/
def GPIO_LINE_FLAG_EDGE_RISING : Nat := 1 <<< 4

/-- Constant `GPIO_LINE_FLAG_EDGE_FALLING` from `src/raw/v2.rs`. -/
def GPIO_LINE_FLAG_EDGE_FALLING : Nat := 1 <<< 5

/-- Constant `GPIO_LINE_FLAG_EDGE_BOTH` from `src/raw/v2.rs`. -/
def GPIO_LINE_FLAG_EDGE_BOTH : Nat :=
  GPIO_LINE_FLAG_EDGE_RISING ||| GPIO_LINE_FLAG_EDGE_FALLING

/-- Constant `GPIO_LINE_FLAG_OPEN_DRAIN` from `src/raw/v2.rs`. -/
def GPIO_LINE_FLAG_OPEN_DRAIN : Nat := 1 <<< 6

/-- Constant `GPIO_LINE_FLAG_OPEN_SOURCE` from `src/raw/v2.rs`. -/
def GPIO_LINE_FLAG_OPEN_SOURCE : Nat := 1 <<< 7

/-- Constant `GPIO_LINE_FLAG_BIAS_PULL_UP` from `src/raw/v2.rs`. -/
def GPIO_LINE_FLAG_BIAS_PULL_UP : Nat := 1 <<< 8

/-- Constant `GPIO_LINE_FLAG_BIAS_PULL_DOWN` from `src/raw/v2.rs`. -/
def GPIO_LINE_FLAG_BIAS_PULL_DOWN : Nat := 1 <<< 9

/-- Constant `GPIO_LINE_FLAG_BIAS_DISABLED` from `src/raw/v2.rs`. -/
def GPIO_LINE_FLAG_BIAS_DISABLED : Nat := 1 <<< 10

/-- Constant `GPIO_LINE_EVENT_RISING_EDGE` from `src/raw/v2.rs`. -/
def GPIO_LINE_EVENT_RISING_EDGE : Nat := 1

/-- Constant `GPIO_LINE_EVENT_FALLING_EDGE` from `src/raw/v2.rs`. -/
def GPIO_LINE_EVENT_FALLING_EDGE : Nat := 2

/-- Embedding of `types::Active`. -/
inductive Active
  | low
  | high
deriving DecidableEq, Repr

/-- Embedding of `types::Bias`. -/
inductive Bias
  | disable
  | pullUp
  | pullDown
deriving DecidableEq, Repr

/-- Embedding of `types::Drive`. -/
inductive Drive
  | pushPull
  | openDrain
  | openSource
deriving DecidableEq, Repr

/-- Embedding of `types::EdgeDetect`. -/
inductive EdgeDetect
  | disable
  | rising
  | falling
  | both
deriving DecidableEq, Repr

/-- Embedding of `types::Edge`. -/
inductive Edge
  | rising
  | falling
deriving DecidableEq, Repr

/-- Embedding of `types::Event`; `SystemTime::UNIX_EPOCH + Duration::from_nanos(t)`
is represented by the nanosecond count `timeNs`. -/
structure Event where
  line : Nat
  edge : Edge
  timeNs : Nat
deriving DecidableEq, Repr

/-- Flags accumulated by the v1 branch of `Chip::request_output` into
`request.flags`, following the source's sequence of `|=` updates (the
`u32` flags cannot overflow, all constants being below `2 ^ 8`). Edge
detection is ignored in the v1 branch (`// TODO: edge detection`). -/
def request_output_flags_v1 (active : Active) (bias : Bias) (drive : Drive) : Nat :=
  let flags := 0 ||| GPIOHANDLE_REQUEST_OUTPUT
  let flags := match active with
    | .low => flags ||| GPIOHANDLE_REQUEST_ACTIVE_LOW
    | .high => flags
  let flags := match bias with
    | .pullUp => flags ||| GPIOHANDLE_REQUEST_BIAS_PULL_UP
    | .pullDown => flags ||| GPIOHANDLE_REQUEST_BIAS_PULL_DOWN
    | .disable => flags ||| GPIOHANDLE_REQUEST_BIAS_DISABLE
  match drive with
  | .openDrain => flags ||| GPIOHANDLE_REQUEST_OPEN_DRAIN
  | .openSource => flags ||| GPIOHANDLE_REQUEST_OPEN_SOURCE
  | .pushPull => flags

/-- Flags accumulated by the v2 branch of `Chip::request_output` into
`request.config.flags`. -/
def request_output_flags_v2 (active : Active) (edge : EdgeDetect) (bias : Bias)
    (drive : Drive) : Nat :=
  let flags := 0 ||| GPIO_LINE_FLAG_OUTPUT
  let flags := match active with
    | .low => flags ||| GPIO_LINE_FLAG_ACTIVE_LOW
    | .high => flags
  let flags := match edge with
    | .rising => flags ||| GPIO_LINE_FLAG_EDGE_RISING
    | .falling => flags ||| GPIO_LINE_FLAG_EDGE_FALLING
    | .both => flags ||| GPIO_LINE_FLAG_EDGE_BOTH
    | .disable => flags
  let flags := match bias with
    | .pullUp => flags ||| GPIO_LINE_FLAG_BIAS_PULL_UP
    | .pullDown => flags ||| GPIO_LINE_FLAG_BIAS_PULL_DOWN
    | .disable => flags ||| GPIO_LINE_FLAG_BIAS_DISABLED
  match drive with
  | .openDrain => flags ||| GPIO_LINE_FLAG_OPEN_DRAIN
  | .openSource => flags ||| GPIO_LINE_FLAG_OPEN_SOURCE
  | .pushPull => flags

/-- Prologue shared by all four request paths (`Chip::request_output` and
`Chip::request_input`, v1 and v2 branches) up to the ioctl: the
`check_len(line_offsets, &request.line_offsets)` call comparing the slice's
element count with the BYTE size of the `[u32; 64]` offsets array, then
`request.line_offsets.copy_from_slice(line_offsets)` over the whole
64-element array, then (after the pure flag computation) the
`safe_set_str(&mut request.consumer_label, label)` call on the 32-byte
consumer field. An `ok` result means the code reaches the ioctl syscall. -/
def request_lines_prologue (n labelLen : Nat) : Outcome Unit :=
  match check_len n OFFSETS_ARRAY_BYTES with
  | .error e => .err e
  | .ok _ =>
    match copy_from_slice GPIOHANDLES_MAX n with
    | .panics => .panics
    | .err e => .err e
    | .ok _ =>
      match safe_set_str GPIO_MAX_NAME_SIZE labelLen with
      | .panics => .panics
      | .err e => .err e
      | .ok _ => .ok ()

/-- Embedding of the v1 branch of `LineValues::get_values`: decoding of the
kernel's per-line byte array `data.values : [u8; 64]` into a `Values`,
starting from `Values::default()` and running
`output_data.set(index, data.values[index] != 0)` for `index in 0..n`
where `n = self.offset.len()` (`n ≤ 64`, else the array indexing panics). -/
def get_values_v1 (values : List Nat) (n : Nat) : Values :=
  (List.range n).foldl (fun acc i => acc.set i (decide (values.getD i 0 ≠ 0))) Values.default

/-- Embedding of the v1 branch of `LineValues::set_values`: the state of the
`data.values : [u8; 64]` byte array (zero-initialised by `default()`) after
`data.values[index] = values.get(index).unwrap_or(false) as u8` has run for
`index in 0..n` (`n ≤ 64`, else the array indexing panics). -/
def set_values_v1 (v : Values) (n : Nat) : List Nat :=
  (List.range GPIOHANDLES_MAX).map fun i =>
    if i < n then (if (v.get i).getD false then 1 else 0) else 0

/-- Embedding of `src/raw/v2.rs` `GpioLineEvent` (padding omitted). -/
structure GpioLineEvent where
  timestamp_ns : Nat
  id : Nat
  offset : Nat
  seqno : Nat
  line_seqno : Nat
deriving DecidableEq, Repr

/-- Embedding of `src/raw/v1.rs` `GpioEventData`. -/
structure GpioEventData where
  timestamp : Nat
  id : Nat
deriving DecidableEq, Repr

/-- Embedding of `LineValues::line_bit`: lookup in the `HashMap` that
`LineValues::new` collects from `offset.iter().enumerate()` keyed by line
with the index (cast to the `u8` type `BitId`) as value; for duplicate
lines the later insertion wins. -/
def line_bit (offset : List Nat) (line : Nat) : Option Nat :=
  offset.enum.foldl (fun acc p => if p.2 == line then some (p.1 % 2 ^ 8) else acc) none

/-- Embedding of the v2 `LineValues::make_event`: the raw offset is first
mapped back through `line_bit` (`invalid_data` if absent), then the event id
is matched against the rising/falling constants (`invalid_data` otherwise). -/
def make_event_v2 (offset : List Nat) (event : GpioLineEvent) : Except IoError Event :=
  match line_bit offset event.offset with
  | none => .error invalid_data
  | some line =>
    if event.id = GPIO_LINE_EVENT_RISING_EDGE then
      .ok ⟨line, .rising, event.timestamp_ns⟩
    else if event.id = GPIO_LINE_EVENT_FALLING_EDGE then
      .ok ⟨line, .falling, event.timestamp_ns⟩
    else .error invalid_data

/-- Embedding of the v1 `LineValues::make_event`: the bit position is a
parameter and only the event id is validated. -/
def make_event_v1 (line : Nat) (event : GpioEventData) : Except IoError Event :=
  if event.id = GPIOEVENT_EVENT_RISING_EDGE then
    .ok ⟨line, .rising, event.timestamp⟩
  else if event.id = GPIOEVENT_EVENT_FALLING_EDGE then
    .ok ⟨line, .falling, event.timestamp⟩
  else .error invalid_data

/-- Embedding of the v2 `LineValues::read_event`: the `file.read` into the
event record either fails with an OS-level I/O error, which is propagated
unchanged by `?`, or yields a record that is decoded by `make_event`. -/
def read_event_v2 (offset : List Nat) (readResult : Except IoError GpioLineEvent) :
    Except IoError Event :=
  match readResult with
  | .error e => .error e
  | .ok event => make_event_v2 offset event

/-! Helper lemmas about `Values.set` and `Values.get` at in-range bit
positions (`bit < 64`), where the masked-shift modelling agrees with every
Rust build profile. -/

theorem testBit_set_mask (v : Values) (i j : Nat) (b : Bool) (hi : i < 64) :
    ((v.set i b).mask).testBit j = (v.mask.testBit j || decide (i = j)) := by
  have hg : ¬ i > 64 := by omega
  have hm : i % 64 = i := Nat.mod_eq_of_lt hi
  simp only [Values.set, if_neg hg, hm, Nat.shiftLeft_eq, one_mul]
  rw [Nat.testBit_or, Nat.testBit_two_pow]

theorem testBit_set_bits (v : Values) (i j : Nat) (b : Bool) (hi : i < 64)
    (hv : v.bits < 2 ^ 64) :
    ((v.set i b).bits).testBit j = if i = j then b else v.bits.testBit j := by
  have hg : ¬ i > 64 := by omega
  have hm : i % 64 = i := Nat.mod_eq_of_lt hi
  simp only [Values.set, if_neg hg, hm, Nat.shiftLeft_eq, one_mul]
  cases b with
  | true =>
    rw [if_pos rfl, Nat.testBit_or, Nat.testBit_two_pow]
    by_cases hij : i = j
    · simp [hij]
    · simp [hij]
  | false =>
    rw [if_neg (by simp), Nat.testBit_and, Nat.testBit_xor,
      Nat.testBit_two_pow_sub_one, Nat.testBit_two_pow]
    by_cases hij : i = j
    · subst hij
      simp [hi]
    · by_cases hj : j < 64
      · simp [hij, hj]
      · have : v.bits.testBit j = false :=
          Nat.testBit_lt_two_pow
            (lt_of_lt_of_le hv (Nat.pow_le_pow_right (by norm_num) (by omega)))
        simp [hij, hj, this]

theorem set_bits_lt (v : Values) (i : Nat) (b : Bool) (hv : v.bits < 2 ^ 64) :
    (v.set i b).bits < 2 ^ 64 := by
  by_cases hg : i > 64
  · simpa [Values.set, hg] using hv
  · have hp : (1 <<< (i % 64) : Nat) < 2 ^ 64 := by
      rw [Nat.shiftLeft_eq, one_mul]
      exact Nat.pow_lt_pow_right (by norm_num) (by omega)
    cases b with
    | true => simpa [Values.set, hg] using Nat.or_lt_two_pow hv hp
    | false =>
      simpa [Values.set, hg] using
        Nat.and_lt_two_pow v.bits
          (Nat.xor_lt_two_pow (by norm_num) hp)

theorem set_mask_lt (v : Values) (i : Nat) (b : Bool) (hv : v.mask < 2 ^ 64) :
    (v.set i b).mask < 2 ^ 64 := by
  by_cases hg : i > 64
  · simpa [Values.set, hg] using hv
  · have hp : (1 <<< (i % 64) : Nat) < 2 ^ 64 := by
      rw [Nat.shiftLeft_eq, one_mul]
      exact Nat.pow_lt_pow_right (by norm_num) (by omega)
    simpa [Values.set, hg] using Nat.or_lt_two_pow hv hp

theorem get_eq_testBit (v : Values) (i : Nat) (hi : i < 64) :
    v.get i = if v.mask.testBit i then some (v.bits.testBit i) else none := by
  have hg : ¬ i > 64 := by omega
  have hm : i % 64 = i := Nat.mod_eq_of_lt hi
  simp only [Values.get, if_neg hg, hm, Nat.shiftLeft_eq, one_mul]
  rw [Nat.and_two_pow, Nat.and_two_pow]
  have hne : (2 : Nat) ^ i ≠ 0 := pow_ne_zero i (by norm_num)
  by_cases hmk : v.mask.testBit i
  · rw [if_pos hmk, if_neg (by simp [hmk, hne])]
    by_cases hb : v.bits.testBit i <;> simp [hb, hne]
  · rw [if_neg hmk, if_pos (by simp [hmk])]

theorem get_values_v1_zero (bytes : List Nat) : get_values_v1 bytes 0 = Values.default := rfl

theorem get_values_v1_succ (bytes : List Nat) (n : Nat) :
    get_values_v1 bytes (n + 1)
      = (get_values_v1 bytes n).set n (decide (bytes.getD n 0 ≠ 0)) := by
  simp [get_values_v1, List.range_succ]

theorem get_values_v1_spec (bytes : List Nat) (n : Nat) (hn : n ≤ 64) :
    (get_values_v1 bytes n).bits < 2 ^ 64 ∧ (get_values_v1 bytes n).mask < 2 ^ 64 ∧
    ∀ j, ((get_values_v1 bytes n).bits.testBit j
            = (decide (j < n) && decide (bytes.getD j 0 ≠ 0)))
       ∧ ((get_values_v1 bytes n).mask.testBit j = decide (j < n)) := by
  induction n with
  | zero =>
    refine ⟨?_, ?_, fun j => ?_⟩ <;> simp [get_values_v1_zero, Values.default]
  | succ n ih =>
    obtain ⟨hb, hm, hj⟩ := ih (by omega)
    have hn64 : n < 64 := by omega
    rw [get_values_v1_succ]
    refine ⟨set_bits_lt _ _ _ hb, set_mask_lt _ _ _ hm, fun j => ?_⟩
    rw [testBit_set_bits _ _ _ _ hn64 hb, testBit_set_mask _ _ _ _ hn64]
    rcases hj j with ⟨hjb, hjm⟩
    by_cases hnj : n = j
    · subst hnj
      simp
    · have : decide (j < n + 1) = decide (j < n) := decide_eq_decide.mpr (by omega)
      rw [if_neg hnj, hjb, hjm, this]
      simp [hnj]

/-- Claim C5: the spec says that for every bit index `b ≥ 64`,
`Values::set(b, v)` is a no-op and `Values::get(b)` returns `None` — and the
source's own doc comments promise the same for any bit outside `0..64`. The
source guards with `bit > 64` instead of `bit >= 64`, so at `b = 64` the
shift `1u64 << 64` overflows: under release semantics (shift amount masked)
`set(64, true)` sets bit 0 of both fields and `get(64)` reads bit 0 (a debug
build panics instead, which is not a no-op either). The code therefore
contradicts its documentation and the claim at `b = 64`. -/
theorem values_bit64_not_ignored :
    Values.set ⟨0, 0⟩ 64 true = ⟨1, 1⟩
  ∧ Values.set ⟨0, 0⟩ 64 true ≠ ⟨0, 0⟩
  ∧ Values.get ⟨1, 1⟩ 64 = some true
  ∧ (∀ b : Nat, 65 ≤ b → ∀ v : Values, ∀ val : Bool, v.set b val = v ∧ v.get b = none) := by
  refine ⟨by decide, by decide, by decide, fun b hb v val => ?_⟩
  have hg : b > 64 := by omega
  constructor
  · simp [Values.set, hg]
  · simp [Values.get, hg]

/-- Claim C6: converting each fixed-width unsigned integer into a `Values`
and back is the identity, the resulting mask is the all-ones pattern of the
width, and the bits field is the value zero-extended. -/
theorem values_conv_roundtrip (a b c d : Nat) (ha : a < 2 ^ 8) (hb : b < 2 ^ 16)
    (hc : c < 2 ^ 32) (hd : d < 2 ^ 64) :
    (Values.toU8 (Values.ofU8 a) = a
      ∧ (Values.ofU8 a).mask = 2 ^ 8 - 1 ∧ (Values.ofU8 a).bits = a)
  ∧ (Values.toU16 (Values.ofU16 b) = b
      ∧ (Values.ofU16 b).mask = 2 ^ 16 - 1 ∧ (Values.ofU16 b).bits = b)
  ∧ (Values.toU32 (Values.ofU32 c) = c
      ∧ (Values.ofU32 c).mask = 2 ^ 32 - 1 ∧ (Values.ofU32 c).bits = c)
  ∧ (Values.toU64 (Values.ofU64 d) = d
      ∧ (Values.ofU64 d).mask = 2 ^ 64 - 1 ∧ (Values.ofU64 d).bits = d) := by
  norm_num at ha hb hc hd
  simp [Values.toU8, Values.ofU8, Values.toU16, Values.ofU16, Values.toU32,
    Values.ofU32, Values.toU64, Values.ofU64, Nat.mod_eq_of_lt, ha, hb, hc, hd]

/-- Witness for C6 at one concrete value of each width. -/
theorem values_conv_roundtrip_witness :
    (200 < 2 ^ 8 ∧ 40000 < 2 ^ 16 ∧ 3000000000 < 2 ^ 32 ∧ 2 ^ 63 < 2 ^ 64)
  ∧ ((Values.toU8 (Values.ofU8 200) = 200
      ∧ (Values.ofU8 200).mask = 2 ^ 8 - 1 ∧ (Values.ofU8 200).bits = 200)
  ∧ (Values.toU16 (Values.ofU16 40000) = 40000
      ∧ (Values.ofU16 40000).mask = 2 ^ 16 - 1 ∧ (Values.ofU16 40000).bits = 40000)
  ∧ (Values.toU32 (Values.ofU32 3000000000) = 3000000000
      ∧ (Values.ofU32 3000000000).mask = 2 ^ 32 - 1
      ∧ (Values.ofU32 3000000000).bits = 3000000000)
  ∧ (Values.toU64 (Values.ofU64 (2 ^ 63)) = 2 ^ 63
      ∧ (Values.ofU64 (2 ^ 63)).mask = 2 ^ 64 - 1
      ∧ (Values.ofU64 (2 ^ 63)).bits = 2 ^ 63)) :=
  ⟨⟨by norm_num, by norm_num, by norm_num, by norm_num⟩,
   values_conv_roundtrip 200 40000 3000000000 (2 ^ 63)
     (by norm_num) (by norm_num) (by norm_num) (by norm_num)⟩

/-- Claim C2: for every offsets slice of length `n ≠ 64` with `n ≤ 255` (so
that the miscounting `check_len` — element count against 256 bytes —
passes), `Chip::request_output` and `Chip::request_input` return no `Result`
at all: `copy_from_slice` into the 64-element `[u32; 64]` array panics on
the length mismatch, in both the v1 and v2 branches. -/
theorem request_not_64_offsets_panics (n labelLen : Nat) (hn : n ≤ 255) (hne : n ≠ 64) :
    request_lines_prologue n labelLen = .panics := by
  have h1 : n < OFFSETS_ARRAY_BYTES := by
    simp [OFFSETS_ARRAY_BYTES, GPIOHANDLES_MAX]
    omega
  simp [request_lines_prologue, check_len, copy_from_slice, GPIOHANDLES_MAX, h1, hne]

/-- Witness for C2: a three-offset request panics. -/
theorem request_not_64_offsets_panics_witness :
    request_lines_prologue 3 5 = Outcome.panics :=
  request_not_64_offsets_panics 3 5 (by norm_num) (by norm_num)

/-- Claim C3: the spec requires a request of more than 64 offsets to fail
with a local validation error before any syscall. In the code, `check_len`
compares the slice's element count against `size_of_val` of the `[u32; 64]`
array — 256 BYTES — so a 65-offset request passes the check and then panics
in `copy_from_slice` instead of returning the validation error (only
requests of 256 or more offsets are rejected). The code contradicts the
spec, whose bound of 64 is plainly the intent of checking against the
64-element kernel array. -/
theorem request_65_offsets_not_validated :
    request_lines_prologue 65 0 = .panics
  ∧ request_lines_prologue 65 0 ≠ .err invalid_input
  ∧ check_len 65 OFFSETS_ARRAY_BYTES = .ok () :=
  ⟨by decide, by decide, rfl⟩

/-- Claim C4: the spec says a consumer label of exactly 31 bytes is encoded
successfully into the 32-byte kernel field, and 32 bytes or more fail
validation. In `safe_set_str` the guard `check_len_str(src, &dst)` measures
`size_of_val` of the REFERENCE `&mut [u8; 32]` (8 bytes), so every label of
7 bytes or more — including the 31-byte labels the claim says succeed — is
rejected with the validation error, and every shorter label panics in the
whole-array `copy_from_slice`. No label is ever encoded. -/
theorem consumer_label_31_rejected :
    safe_set_str GPIO_MAX_NAME_SIZE 31 = .err invalid_input
  ∧ safe_set_str GPIO_MAX_NAME_SIZE 32 = .err invalid_input
  ∧ safe_set_str GPIO_MAX_NAME_SIZE 3 = .panics
  ∧ request_lines_prologue 64 31 = .err invalid_input := by decide

/-- Sysfs `dev` record `"253:0\n"` read into the zero-initialised 16-byte
buffer: a record that does NOT match device number 254:0. -/
def sysfs_record_253 : List Nat := [50, 53, 51, 58, 48, 10, 0, 0, 0, 0, 0, 0, 0, 0, 0, 0]

/-- Sysfs `dev` record `"254:0"` without a trailing line feed, read into the
zero-initialised 16-byte buffer: a record that DOES match device number
254:0. -/
def sysfs_record_254_no_lf : List Nat := [50, 53, 52, 58, 48, 0, 0, 0, 0, 0, 0, 0, 0, 0, 0, 0]

/-- Claim C1: the spec says `Chip::new` fails with a validation error
exactly when the first line of the sysfs `dev` record differs from the
`"major:minor"` string of the opened file's device number. The source
compares a slice cut one byte SHORT of the line feed (`[0..lf_pos - 1]`)
and then returns the "Unmatched device versions" error when the strings are
EQUAL, succeeding when they differ — both the truncation and the inverted
comparison contradict the claim and the error message's own wording. At
device number `rdev = 65024` (major 254, minor 0): a mismatching record
`"253:0\n"` makes the check succeed, and a matching record `"254:0"`
(without line feed, so the NUL-trimmed comparison sees the full string)
makes it fail. -/
theorem is_gpiochip_cdev_inverted :
    is_gpiochip_cdev true true sysfs_record_253 65024 = .ok true
  ∧ is_gpiochip_cdev true true sysfs_record_254_no_lf 65024
      = .err ⟨.other, "Unmatched device versions"⟩ := by decide

/-- Claim C7: under the v1 ABI, for a request of `n` offsets, `get_values`
decodes the kernel's per-line byte array so that bit `i` of the result is
`byte i != 0` for every `i < n`, and every mask bit at a position `≥ n` is
unset. -/
theorem get_values_v1_decodes (bytes : List Nat) (n i j : Nat) (hn : n ≤ 64)
    (hi : i < n) (hj : n ≤ j) :
    (get_values_v1 bytes n).bits.testBit i = decide (bytes.getD i 0 ≠ 0)
  ∧ (get_values_v1 bytes n).mask.testBit j = false := by
  obtain ⟨-, -, h⟩ := get_values_v1_spec bytes n hn
  constructor
  · rw [(h i).1, decide_eq_true hi, Bool.true_and]
  · rw [(h j).2, decide_eq_false (by omega)]

/-- Witness for C7 on the byte array `[1, 0, 2]` with three offsets. -/
theorem get_values_v1_decodes_witness :
    (get_values_v1 [1, 0, 2] 3).bits.testBit 2 = decide (([1, 0, 2].getD 2 0 : Nat) ≠ 0)
  ∧ (get_values_v1 [1, 0, 2] 3).mask.testBit 10 = false :=
  get_values_v1_decodes [1, 0, 2] 3 2 10 (by norm_num) (by norm_num) (by norm_num)

/-- Claim C8: under the v1 ABI, for a request of `n` offsets, `set_values`
fills the kernel byte array so that byte `i` is 1 exactly when bit `i` is
masked and set, and 0 when it is masked-and-false or unmasked, for every
`i < n`. -/
theorem set_values_v1_encodes (v : Values) (n i : Nat) (hn : n ≤ 64) (hi : i < n) :
    (set_values_v1 v n).getD i 0
      = if v.mask.testBit i && v.bits.testBit i then 1 else 0 := by
  have hi64 : i < 64 := lt_of_lt_of_le hi hn
  rw [set_values_v1, List.getD_eq_getElem?_getD, List.getElem?_map,
    List.getElem?_range (show i < GPIOHANDLES_MAX from hi64)]
  simp only [Option.map_some', Option.getD_some, if_pos hi]
  rw [get_eq_testBit v i hi64]
  by_cases hmk : v.mask.testBit i <;> simp [hmk]

/-- Witness for C8 on `Values` with bits 5 and mask 6 and three offsets:
bit 0 is unmasked (byte 0), bit 2 is masked and set (byte 1). -/
theorem set_values_v1_encodes_witness :
    ((set_values_v1 ⟨5, 6⟩ 3).getD 0 0
      = if Nat.testBit 6 0 && Nat.testBit 5 0 then 1 else 0)
  ∧ ((set_values_v1 ⟨5, 6⟩ 3).getD 2 0
      = if Nat.testBit 6 2 && Nat.testBit 5 2 then 1 else 0) :=
  ⟨set_values_v1_encodes ⟨5, 6⟩ 3 0 (by norm_num) (by norm_num),
   set_values_v1_encodes ⟨5, 6⟩ 3 2 (by norm_num) (by norm_num)⟩

/-- Claim C9: in every request built by `Chip::request_output`,
`Drive::OpenDrain` sets exactly the open-drain flag bit (not open-source),
`Drive::OpenSource` sets exactly the open-source bit (not open-drain), and
`Drive::PushPull` sets neither, in both the v1 and the v2 flag encodings,
whatever the active level, bias and (v2) edge settings. -/
theorem request_output_drive_flags (active : Active) (bias : Bias) (edge : EdgeDetect) :
    (is_set (request_output_flags_v1 active bias .openDrain) GPIOHANDLE_REQUEST_OPEN_DRAIN = true
      ∧ is_set (request_output_flags_v1 active bias .openDrain) GPIOHANDLE_REQUEST_OPEN_SOURCE = false)
  ∧ (is_set (request_output_flags_v1 active bias .openSource) GPIOHANDLE_REQUEST_OPEN_SOURCE = true
      ∧ is_set (request_output_flags_v1 active bias .openSource) GPIOHANDLE_REQUEST_OPEN_DRAIN = false)
  ∧ (is_set (request_output_flags_v1 active bias .pushPull) GPIOHANDLE_REQUEST_OPEN_DRAIN = false
      ∧ is_set (request_output_flags_v1 active bias .pushPull) GPIOHANDLE_REQUEST_OPEN_SOURCE = false)
  ∧ (is_set (request_output_flags_v2 active edge bias .openDrain) GPIO_LINE_FLAG_OPEN_DRAIN = true
      ∧ is_set (request_output_flags_v2 active edge bias .openDrain) GPIO_LINE_FLAG_OPEN_SOURCE = false)
  ∧ (is_set (request_output_flags_v2 active edge bias .openSource) GPIO_LINE_FLAG_OPEN_SOURCE = true
      ∧ is_set (request_output_flags_v2 active edge bias .openSource) GPIO_LINE_FLAG_OPEN_DRAIN = false)
  ∧ (is_set (request_output_flags_v2 active edge bias .pushPull) GPIO_LINE_FLAG_OPEN_DRAIN = false
      ∧ is_set (request_output_flags_v2 active edge bias .pushPull) GPIO_LINE_FLAG_OPEN_SOURCE = false) := by
  cases active <;> cases bias <;> cases edge <;> decide

/-- Claim C10: decoding an event record whose edge code is outside the
rising/falling set fails with the data-invalid error (not an OS error,
which `read_event` would instead propagate from the failed `read`), and
under the v2 ABI a record whose raw offset maps to no requested line also
fails with the data-invalid error. -/
theorem read_event_invalid_records (offset : List Nat) (event : GpioLineEvent)
    (line : Nat) (event1 : GpioEventData) :
    (event.id ≠ GPIO_LINE_EVENT_RISING_EDGE → event.id ≠ GPIO_LINE_EVENT_FALLING_EDGE →
      read_event_v2 offset (.ok event) = .error invalid_data)
  ∧ (line_bit offset event.offset = none →
      read_event_v2 offset (.ok event) = .error invalid_data)
  ∧ (event1.id ≠ GPIOEVENT_EVENT_RISING_EDGE → event1.id ≠ GPIOEVENT_EVENT_FALLING_EDGE →
      make_event_v1 line event1 = .error invalid_data) := by
  refine ⟨fun h1 h2 => ?_, fun h => ?_, fun h1 h2 => ?_⟩
  · cases hlb : line_bit offset event.offset <;>
      simp [read_event_v2, make_event_v2, hlb, h1, h2]
  · simp [read_event_v2, make_event_v2, h]
  · simp [make_event_v1, h1, h2]

/-- Witness for C10: with requested offsets 4 and 7, a v2 record with edge
code 5 is rejected, a v2 record with valid edge code 1 but unrequested
offset 9 is rejected, and a v1 record with edge code 3 is rejected. -/
theorem read_event_invalid_records_witness :
    read_event_v2 [4, 7] (.ok ⟨0, 5, 7, 0, 0⟩) = .error invalid_data
  ∧ read_event_v2 [4, 7] (.ok ⟨0, 1, 9, 0, 0⟩) = .error invalid_data
  ∧ make_event_v1 0 ⟨0, 3⟩ = .error invalid_data :=
  ⟨(read_event_invalid_records [4, 7] ⟨0, 5, 7, 0, 0⟩ 0 ⟨0, 3⟩).1 (by decide) (by decide),
   (read_event_invalid_records [4, 7] ⟨0, 1, 9, 0, 0⟩ 0 ⟨0, 3⟩).2.1 (by decide),
   (read_event_invalid_records [4, 7] ⟨0, 1, 9, 0, 0⟩ 0 ⟨0, 3⟩).2.2 (by decide) (by decide)⟩

end LibGpiod
